import Mathlib

/-!
Shallow embedding of `src/project9-reviews/server.js`, a small Express review
site: session-based signup/login/logout, CSRF-guarded review submission, a
reverse-chronological feed, and a review detail page.  Request bodies are
modelled as optional strings (absent field = `none`), JavaScript truthiness of
a form field as `jsFalsy`, MongoDB documents as Lean structures in lists, and
each route handler as a pure function from server state and request data to a
response and a new state.  The Mongoose model files (`models/User.js`,
`models/Review.js`) are not part of the sources; the few operations they
provide (password hashing/verification, save-time schema validation) are
modelled from the specification and marked as such in their doc comments.
-/

namespace ReviewsApp

/-- A persisted user document: `models/User.js` stores username, email and a
hashed password; `_id` is modelled as a natural number. -/
structure User where
  id : Nat
  username : String
  email : String
  passwordHash : String
deriving Repr, DecidableEq

/-- A persisted review document: owning user reference, rating, comment and
creation timestamp (`createdAt` as a natural number). -/
structure Review where
  id : Nat
  user : Nat
  rating : Int
  comment : String
  createdAt : Nat
deriving Repr, DecidableEq

/-- The identity stored in the session by `server.js` lines 92 and 124:
exactly `id`, `username` and `email` — the structure has no password field. -/
structure SessionUser where
  id : Nat
  username : String
  email : String
deriving Repr, DecidableEq

/-- A review together with its author as produced by `.populate('user')`. -/
structure PopulatedReview where
  review : Review
  author : Option User
deriving Repr, DecidableEq

/-- The server-side state visible to the handlers: the two MongoDB
collections, the current request's session identity (if any), and the CSRF
secret bound to the current session/requester. -/
structure ServerState where
  users : List User
  reviews : List Review
  session : Option SessionUser
  csrfSecret : String
deriving Repr, DecidableEq

/-- Responses a handler can produce: `render view error` for
`res.render(view, { error })`, `renderIndex` / `renderDetail` for the pages
carrying data, `redirect` for `res.redirect`, `send` for `res.send(message)`,
`forbidden` for the CSRF middleware's rejection, `notFound` for Express's
default 404. -/
inductive Response where
  | render (view : String) (error : Option String)
  | renderIndex (reviews : List PopulatedReview)
  | renderDetail (review : PopulatedReview)
  | redirect (path : String)
  | send (message : String)
  | forbidden
  | notFound
deriving Repr, DecidableEq

/-- JavaScript falsiness of an optional string form field: absent or the
empty string.  (`req.body.x` is a string when present; `!x` is true exactly
for `undefined` and `""`.) -/
def jsFalsy : Option String → Bool
  | none => true
  | some s => s == ""

/-- Digit-string parsing on the character list underlying a string:
`some` of the value for a non-empty all-digit list, `none` otherwise. -/
def parseDigitsAux : List Char → Nat → Option Nat
  | [], acc => some acc
  | c :: cs, acc =>
    if c.isDigit then parseDigitsAux cs (acc * 10 + (c.toNat - 48))
    else none

/-- Parse a non-empty digit list; the empty list yields `none`. -/
def parseDigits : List Char → Option Nat
  | [] => none
  | c :: cs => parseDigitsAux (c :: cs) 0

/-- JavaScript `ToNumber` on a form-field string, restricted to (optionally
negated) integer literals: `none` plays the role of `NaN` (every `<`/`>`
comparison with it is false), matching how `rating < 1 || rating > 5` behaves
on non-numeric input. -/
def toNumber (s : String) : Option Int :=
  match s.data with
  | [] => none
  | c :: cs =>
    if c = '-' then (parseDigits cs).map (fun n => -(n : Int))
    else (parseDigits (c :: cs)).map (fun n => (n : Int))

/-- JavaScript `comment.trim()`: drop whitespace from both ends, modelled on
the character list underlying the string. -/
def trimString (s : String) : String :=
  String.mk
    (((s.data.dropWhile Char.isWhitespace).reverse.dropWhile
        Char.isWhitespace).reverse)

/-- JavaScript `s < n` where `s` is a body string and `n` a number literal:
false when `s` does not convert to a number (`NaN` comparisons are false). -/
def jsLtNum (s : String) (n : Int) : Bool :=
  match toNumber s with
  | none => false
  | some v => v < n

/-- JavaScript `s > n`, same conventions as `jsLtNum`. -/
def jsGtNum (s : String) (n : Int) : Bool :=
  match toNumber s with
  | none => false
  | some v => n < v

/-- User-facing messages of `server.js` (Korean literals kept verbatim). -/
def msgAllFields : String := "모든 필드를 입력해주세요."

def msgPasswordMismatch : String := "비밀번호가 일치하지 않습니다."

def msgDuplicateUser : String := "이미 존재하는 사용자입니다."

def msgSignupError : String := "회원가입 중 오류가 발생했습니다."

def msgInvalidCredentials : String := "이메일 또는 비밀번호가 올바르지 않습니다."

def msgLoginError : String := "로그인 중 오류가 발생했습니다."

def msgRatingRange : String := "평점은 1에서 5 사이여야 합니다."

def msgReviewSaveError : String := "리뷰 작성 중 오류가 발생했습니다."

def msgFeedError : String := "리뷰 목록을 불러오는 중 오류가 발생했습니다."

def msgReviewNotFound : String := "리뷰를 찾을 수 없습니다."

def msgDetailError : String := "리뷰 상세 정보를 불러오는 중 오류가 발생했습니다."

/-- Modelled from the spec: `models/User.js` is not under the sources; the
spec says the credential store persists the password only as an irreversible
salted hash.  The hash is abstracted as a tagged encoding of the password. -/
def hashPassword (password : String) : String := "hashed:" ++ password

/-- Modelled from the spec: `models/User.js` defines `comparePassword`; per
the spec it answers whether a submitted password verifies against the stored
hash. -/
def comparePassword (u : User) (password : String) : Bool :=
  u.passwordHash == hashPassword password

/-- Implements `User.findOne({ $or: [{ email }, { username }] })` (server.js
line 84). -/
def findOneByEmailOrUsername (users : List User) (email username : String) :
    Option User :=
  users.find? (fun u => u.email == email || u.username == username)

/-- Implements `User.findOne({ email })` (server.js line 114). -/
def findOneByEmail (users : List User) (email : String) : Option User :=
  users.find? (fun u => u.email == email)

/-- Modelled from the spec: `models/User.js` is not under the sources; the
spec's credential store enforces global uniqueness of username and email, so
`user.save()` fails exactly on a duplicate. -/
def saveUser (users : List User) (u : User) : Except String (List User) :=
  if users.any (fun v => v.email == u.email || v.username == u.username) then
    Except.error "duplicate key"
  else
    Except.ok (users ++ [u])

/-- Modelled from the spec: `models/Review.js` is not under the sources; the
spec's data model requires an integer rating in `[1,5]` and a non-empty
comment, so `review.save()` rejects a record violating either (a Mongoose
required/min/max validation failure), and a rating that did not cast to a
number fails as well. -/
def saveReview (reviews : List Review) (userId : Nat) (rating : Option Int)
    (comment : String) (now : Nat) : Except String (List Review) :=
  match rating with
  | none => Except.error "cast to Number failed"
  | some r =>
    if 1 ≤ r ∧ r ≤ 5 ∧ comment ≠ "" then
      Except.ok (reviews ++
        [{ id := reviews.length, user := userId, rating := r,
           comment := comment, createdAt := now }])
    else
      Except.error "validation failed"

/-- The session identity written by `server.js` lines 92 and 124:
`{ id: user._id, username: user.username, email: user.email }` — exactly
those three fields of the user record, nothing else. -/
def sessionOf (u : User) : SessionUser :=
  { id := u.id, username := u.username, email := u.email }

/-- Implements `.populate('user')`: resolve the owning user reference. -/
def populate (st : ServerState) (r : Review) : PopulatedReview :=
  { review := r, author := st.users.find? (fun u => u.id == r.user) }

/-- Creation-time-descending order used by `.sort({ createdAt: -1 })`. -/
def reviewDescOrder : Review → Review → Prop :=
  fun a b => b.createdAt ≤ a.createdAt

instance : DecidableRel reviewDescOrder :=
  fun a b => Nat.decLe b.createdAt a.createdAt

instance : IsTotal Review reviewDescOrder :=
  ⟨fun a b => Nat.le_total b.createdAt a.createdAt⟩

instance : IsTrans Review reviewDescOrder :=
  ⟨fun _ _ _ h1 h2 => Nat.le_trans h2 h1⟩

/-- The feed contents: all reviews sorted by `createdAt` descending, each with
its author resolved (`Review.find().populate('user').sort({ createdAt: -1 })`,
server.js line 58; the sorted retrieval itself is performed by the store). -/
def feedOf (st : ServerState) : List PopulatedReview :=
  (List.insertionSort reviewDescOrder st.reviews).map (populate st)

/-- Handler for `GET /` (server.js lines 56–64): render the feed, or a
generic error message if the store failed. -/
def getIndex (st : ServerState) (storeFail : Bool) : Response :=
  if storeFail then Response.send msgFeedError
  else Response.renderIndex (feedOf st)

/-- Builds `new User({ username, email, password })` (server.js line 89) with
the next identifier; the password is stored hashed (see `hashPassword`). -/
def newUser (st : ServerState) (username email password : Option String) :
    User :=
  { id := st.users.length, username := username.getD "",
    email := email.getD "", passwordHash := hashPassword (password.getD "") }

/-- Handler for `POST /signup` (server.js lines 72–98). -/
def postSignup (st : ServerState)
    (username email password confirmPassword : Option String) :
    Response × ServerState :=
  if jsFalsy username || jsFalsy email || jsFalsy password ||
      jsFalsy confirmPassword then
    (Response.render "signup" (some msgAllFields), st)
  else if password ≠ confirmPassword then
    (Response.render "signup" (some msgPasswordMismatch), st)
  else
    match findOneByEmailOrUsername st.users (email.getD "") (username.getD "") with
    | some _ => (Response.render "signup" (some msgDuplicateUser), st)
    | none =>
      match saveUser st.users (newUser st username email password) with
      | Except.error _ => (Response.render "signup" (some msgSignupError), st)
      | Except.ok users2 =>
        (Response.redirect "/",
         { st with users := users2,
                   session := some (sessionOf (newUser st username email password)) })

/-- Handler for `POST /login` (server.js lines 106–130). -/
def postLogin (st : ServerState) (email password : Option String) :
    Response × ServerState :=
  if jsFalsy email || jsFalsy password then
    (Response.render "login" (some msgAllFields), st)
  else
    match findOneByEmail st.users (email.getD "") with
    | none => (Response.render "login" (some msgInvalidCredentials), st)
    | some user =>
      if comparePassword user (password.getD "") then
        (Response.redirect "/", { st with session := some (sessionOf user) })
      else
        (Response.render "login" (some msgInvalidCredentials), st)

/-- Handler for `GET /reviews/new` (server.js lines 133–138): login
required. -/
def getReviewsNew (st : ServerState) : Response :=
  match st.session with
  | none => Response.redirect "/login"
  | some _ => Response.render "new" none

/-- Handler for `POST /reviews/new` (server.js lines 141–168): login
required, then field presence and rating-range checks, then `review.save()`
with the comment trimmed. -/
def postReviewsNew (st : ServerState) (rating comment : Option String)
    (now : Nat) : Response × ServerState :=
  match st.session with
  | none => (Response.redirect "/login", st)
  | some su =>
    if jsFalsy rating || jsFalsy comment then
      (Response.render "new" (some msgAllFields), st)
    else if jsLtNum (rating.getD "") 1 || jsGtNum (rating.getD "") 5 then
      (Response.render "new" (some msgRatingRange), st)
    else
      match saveReview st.reviews su.id (toNumber (rating.getD ""))
          (trimString (comment.getD "")) now with
      | Except.error _ =>
        (Response.render "new" (some msgReviewSaveError), st)
      | Except.ok reviews2 =>
        (Response.redirect "/", { st with reviews := reviews2 })

/-- Handler for `GET /reviews/:id` (server.js lines 171–184): `findById`,
not-found message, or a generic error message if the store failed. -/
def getReviewDetail (st : ServerState) (reviewId : Nat) (storeFail : Bool) :
    Response :=
  if storeFail then Response.send msgDetailError
  else
    match st.reviews.find? (fun r => r.id == reviewId) with
    | none => Response.send msgReviewNotFound
    | some r => Response.renderDetail (populate st r)

/-- Outcome of `GET /logout` (server.js lines 187–195): the response, the
resulting state, and whether `res.clearCookie('connect.sid')` ran. -/
structure LogoutResult where
  response : Response
  state : ServerState
  clearedCookie : Bool
deriving Repr, DecidableEq

/-- Handler for `GET /logout`: `req.session.destroy(err => ...)`.
`destroyErr` is the error the session store reported to the callback (false
when no session existed: destroying an absent session succeeds). -/
def getLogout (st : ServerState) (destroyErr : Bool) : LogoutResult :=
  if destroyErr then
    { response := Response.redirect "/", state := st, clearedCookie := false }
  else
    { response := Response.redirect "/login",
      state := { st with session := none }, clearedCookie := true }

/-- The session cookie options (server.js lines 35–39): `httpOnly`, `secure`
conditional on `NODE_ENV`, `maxAge` one hour; no other key appears, so
`sameSite` is `none` (not configured). -/
structure SessionCookieOptions where
  httpOnly : Bool
  secure : Bool
  maxAge : Nat
  sameSite : Option String
deriving Repr, DecidableEq

/-- The cookie configuration as a function of `process.env.NODE_ENV`. -/
def sessionCookie (nodeEnv : String) : SessionCookieOptions :=
  { httpOnly := true, secure := nodeEnv == "production",
    maxAge := 1000 * 60 * 60, sameSite := none }

/-- Modelled from the spec: the `csurf` package is an external dependency;
per the spec the guard issues a token bound to the current session's secret
and a mutating request must echo it back.  The token is abstracted as a
tagged encoding of the secret. -/
def csrfTokenFor (secret : String) : String := "token:" ++ secret

/-- Whether the submitted token matches the one for the current session. -/
def csrfValid (st : ServerState) (tok : Option String) : Bool :=
  tok == some (csrfTokenFor st.csrfSecret)

/-- HTTP method; the app mutates state only via POST routes, and `csurf`
exempts GET (read-only) requests. -/
inductive Method where
  | GET
  | POST
deriving Repr, DecidableEq

/-- The routes of the app; `other` stands for any unmatched path. -/
inductive RoutePath where
  | root
  | signup
  | login
  | reviewsNew
  | reviewDetail (id : Nat)
  | logout
  | other
deriving Repr, DecidableEq

/-- The form body of a request, every field optional, plus the `_csrf`
token. -/
structure ReqBody where
  username : Option String := none
  email : Option String := none
  password : Option String := none
  confirmPassword : Option String := none
  rating : Option String := none
  comment : Option String := none
  csrfToken : Option String := none
deriving Repr, DecidableEq

/-- An incoming request. -/
structure Request where
  method : Method
  path : RoutePath
  body : ReqBody
deriving Repr, DecidableEq

/-- Outcomes of the external world during one request: whether a store read
failed, whether `session.destroy` reported an error, and the current time. -/
structure Externals where
  storeFail : Bool := false
  destroyErr : Bool := false
  now : Nat := 0
deriving Repr, DecidableEq

/-- The whole per-request pipeline (server.js lines 31–195): the `csurf`
middleware (mounted at line 42, before every route) rejects a mutating
request whose token does not match before any route handler runs; otherwise
the request is dispatched to its route handler. -/
def handleRequest (st : ServerState) (req : Request) (ext : Externals) :
    Response × ServerState :=
  if req.method = Method.POST ∧ ¬ csrfValid st req.body.csrfToken then
    (Response.forbidden, st)
  else
    match req.method, req.path with
    | Method.GET, RoutePath.root => (getIndex st ext.storeFail, st)
    | Method.GET, RoutePath.signup => (Response.render "signup" none, st)
    | Method.POST, RoutePath.signup =>
      postSignup st req.body.username req.body.email req.body.password
        req.body.confirmPassword
    | Method.GET, RoutePath.login => (Response.render "login" none, st)
    | Method.POST, RoutePath.login => postLogin st req.body.email req.body.password
    | Method.GET, RoutePath.reviewsNew => (getReviewsNew st, st)
    | Method.POST, RoutePath.reviewsNew =>
      postReviewsNew st req.body.rating req.body.comment ext.now
    | Method.GET, RoutePath.reviewDetail rid =>
      (getReviewDetail st rid ext.storeFail, st)
    | Method.GET, RoutePath.logout =>
      ((getLogout st ext.destroyErr).response, (getLogout st ext.destroyErr).state)
    | _, _ => (Response.notFound, st)

/-- A submission is valid when the rating string converts to an integer in
`[1,5]` and the comment is non-empty after trimming. -/
def validSubmission (rating comment : Option String) : Bool :=
  (match toNumber (rating.getD "") with
   | none => false
   | some r => decide (1 ≤ r) && decide (r ≤ 5)) &&
  (trimString (comment.getD "") != "")

/-! Concrete sample data used by the witness theorems. -/

/-- A sample registered user. -/
def sampleUser : User :=
  { id := 0, username := "ann", email := "a@x.com",
    passwordHash := hashPassword "pw1" }

/-- A sample state with one user and no authenticated session. -/
def stNoSession : ServerState :=
  { users := [sampleUser], reviews := [], session := none, csrfSecret := "sec" }

/-- A sample state with one user who is logged in. -/
def stLoggedIn : ServerState :=
  { users := [sampleUser], reviews := [], session := some (sessionOf sampleUser),
    csrfSecret := "sec" }

/-- An older sample review. -/
def reviewOlder : Review :=
  { id := 0, user := 0, rating := 4, comment := "old", createdAt := 1 }

/-- A newer sample review. -/
def reviewNewer : Review :=
  { id := 1, user := 0, rating := 5, comment := "new", createdAt := 5 }

/-- A sample state with two reviews, stored oldest first. -/
def stTwoReviews : ServerState :=
  { users := [sampleUser], reviews := [reviewOlder, reviewNewer],
    session := none, csrfSecret := "sec" }

/-- A sample mutating request carrying no CSRF token. -/
def reqBadCsrf : Request :=
  { method := Method.POST, path := RoutePath.reviewsNew,
    body := { rating := some "5", comment := some "ok", csrfToken := none } }

/-- Default external outcomes: no store failure, no destroy error, time 0. -/
def extDefault : Externals := {}

/-! Helper lemmas about the modelled store operations. -/

/-- A successful `review.save()` appends exactly one record satisfying the
schema constraints. -/
theorem saveReview_ok_spec {reviews : List Review} {userId : Nat}
    {rating : Option Int} {comment : String} {now : Nat}
    {reviews2 : List Review}
    (h : saveReview reviews userId rating comment now = Except.ok reviews2) :
    ∃ r : Int, rating = some r ∧ 1 ≤ r ∧ r ≤ 5 ∧ comment ≠ "" ∧
      reviews2 = reviews ++
        [{ id := reviews.length, user := userId, rating := r,
           comment := comment, createdAt := now }] := by
  unfold saveReview at h
  split at h
  · cases h
  · split at h
    · rename_i r hc
      exact ⟨r, rfl, hc.1, hc.2.1, hc.2.2, (Except.ok.inj h).symm⟩
    · cases h

/-- A successful `user.save()` appends exactly the new user. -/
theorem saveUser_ok_spec {users : List User} {u : User} {users2 : List User}
    (h : saveUser users u = Except.ok users2) : users2 = users ++ [u] := by
  unfold saveUser at h
  by_cases hd : users.any (fun v => v.email == u.email || v.username == u.username)
  · rw [if_pos hd] at h
    cases h
  · rw [if_neg hd] at h
    exact (Except.ok.inj h).symm

/-! The claims. -/

/-- C3 counterexample: the session cookie options of server.js lines 35–39
set no `sameSite` attribute at all, in production or otherwise, so the claim
that the cookie is configured same-site fails. -/
theorem session_cookie_not_samesite :
    (sessionCookie "production").sameSite = none ∧
    (sessionCookie "development").sameSite = none :=
  ⟨rfl, rfl⟩

/-- C3 amended: the session cookie is HTTP-only, and is marked secure exactly
when `NODE_ENV` is `production`; no `sameSite` attribute is configured (the
browser default applies). -/
theorem session_cookie_flags (env : String) :
    (sessionCookie env).httpOnly = true ∧
    (sessionCookie env).secure = (env == "production") ∧
    (sessionCookie env).sameSite = none :=
  ⟨rfl, rfl, rfl⟩

/-- C2 counterexample: when `session.destroy` reports an error, the logout
handler redirects to the feed `/`, not to the login page, and never reaches
`res.clearCookie`, so the claim that it redirects to login regardless of a
destruction error fails. -/
theorem logout_error_redirects_to_feed :
    (getLogout stNoSession true).response = Response.redirect "/" ∧
    (getLogout stNoSession true).response ≠ Response.redirect "/login" ∧
    (getLogout stNoSession true).clearedCookie = false := by
  refine ⟨rfl, ?_, rfl⟩
  decide

/-- C2 amended: logout destroys the session; when destruction reports no
error it clears the session cookie and redirects to the login page (also when
no session existed, in which case destruction succeeds), and when destruction
reports an error it redirects to the feed `/` without clearing the cookie,
leaving the state unchanged — in neither case does the handler raise an
error. -/
theorem logout_behaviour (st : ServerState) (e : Bool) :
    (e = false → (getLogout st e).response = Response.redirect "/login" ∧
      (getLogout st e).clearedCookie = true ∧
      (getLogout st e).state.session = none) ∧
    (e = true → (getLogout st e).response = Response.redirect "/" ∧
      (getLogout st e).clearedCookie = false ∧ (getLogout st e).state = st) := by
  cases e <;> simp [getLogout]

/-- C2 witness: on the sample state with no session, error-free destruction
redirects to login with the cookie cleared and no session left. -/
theorem logout_behaviour_witness :
    (getLogout stNoSession false).response = Response.redirect "/login" ∧
    (getLogout stNoSession false).clearedCookie = true ∧
    (getLogout stNoSession false).state.session = none :=
  (logout_behaviour stNoSession false).1 rfl

/-- C5: without an authenticated session, both `GET /reviews/new` and
`POST /reviews/new` respond with a redirect to `/login`, and the POST leaves
the state unchanged (no review created), whatever the request body. -/
theorem unauthenticated_review_routes_redirect (st : ServerState)
    (rating comment : Option String) (now : Nat) (h : st.session = none) :
    getReviewsNew st = Response.redirect "/login" ∧
    postReviewsNew st rating comment now = (Response.redirect "/login", st) := by
  constructor
  · unfold getReviewsNew
    rw [h]
  · unfold postReviewsNew
    rw [h]

/-- C5 witness: a concrete unauthenticated submission is redirected and
persists nothing. -/
theorem unauthenticated_review_routes_redirect_witness :
    stNoSession.session = none ∧
    (getReviewsNew stNoSession = Response.redirect "/login" ∧
     postReviewsNew stNoSession (some "3") (some "nice") 7 =
       (Response.redirect "/login", stNoSession)) :=
  ⟨rfl, unauthenticated_review_routes_redirect stNoSession (some "3") (some "nice") 7 rfl⟩

/-- C9: `GET /reviews/:id` with an identifier matching no stored review
renders the not-found message via `res.send` (not an HTTP error page), and on
a store failure it renders the generic load-error message instead. -/
theorem review_detail_messages (st : ServerState) (rid : Nat)
    (h : st.reviews.find? (fun r => r.id == rid) = none) :
    getReviewDetail st rid false = Response.send msgReviewNotFound ∧
    getReviewDetail st rid true = Response.send msgDetailError := by
  constructor
  · simp [getReviewDetail, h]
  · rfl

/-- C9 witness: on the sample state (no reviews), id 0 yields the not-found
message, and a store failure yields the load-error message. -/
theorem review_detail_messages_witness :
    stNoSession.reviews.find? (fun r => r.id == 0) = none ∧
    (getReviewDetail stNoSession 0 false = Response.send msgReviewNotFound ∧
     getReviewDetail stNoSession 0 true = Response.send msgDetailError) :=
  ⟨rfl, review_detail_messages stNoSession 0 rfl⟩

/-- C7: when the submitted email matches no user, or matches one whose stored
hash the submitted password does not verify against, login re-renders the
login form with the identical generic invalid-credentials message in both
cases, and the state — in particular the session — is unchanged. -/
theorem login_failure_generic (st : ServerState) (email password : Option String)
    (he : jsFalsy email = false) (hp : jsFalsy password = false)
    (h : findOneByEmail st.users (email.getD "") = none ∨
      ∃ u, findOneByEmail st.users (email.getD "") = some u ∧
        comparePassword u (password.getD "") = false) :
    postLogin st email password =
      (Response.render "login" (some msgInvalidCredentials), st) := by
  rcases h with h | ⟨u, hu, hcp⟩
  · simp [postLogin, he, hp, h]
  · simp [postLogin, he, hp, hu, hcp]

/-- C7 witness: a correct email with a wrong password gets the generic
message and no session. -/
theorem login_failure_generic_witness :
    jsFalsy (some "a@x.com") = false ∧ jsFalsy (some "wrong") = false ∧
    (∃ u, findOneByEmail stNoSession.users ((some "a@x.com").getD "") = some u ∧
      comparePassword u ((some "wrong").getD "") = false) ∧
    postLogin stNoSession (some "a@x.com") (some "wrong") =
      (Response.render "login" (some msgInvalidCredentials), stNoSession) :=
  ⟨rfl, rfl, ⟨sampleUser, rfl, by decide⟩,
    login_failure_generic stNoSession (some "a@x.com") (some "wrong") rfl rfl
      (Or.inr ⟨sampleUser, rfl, by decide⟩)⟩

/-- C4: a signup attempt whose email or username equals that of an existing
user fails — the signup form is re-rendered with an error — and the state
(hence every existing user record) is unchanged. -/
theorem signup_duplicate_rejected (st : ServerState)
    (username email password confirmPassword : Option String) (u : User)
    (hu : u ∈ st.users)
    (hdup : u.email = email.getD "" ∨ u.username = username.getD "") :
    (∃ e, (postSignup st username email password confirmPassword).1 =
        Response.render "signup" (some e)) ∧
    (postSignup st username email password confirmPassword).2 = st := by
  have hfind :
      findOneByEmailOrUsername st.users (email.getD "") (username.getD "") ≠
        none := by
    intro hn
    have hpred := List.find?_eq_none.mp hn u hu
    rcases hdup with h | h <;> simp [h] at hpred
  unfold postSignup
  split_ifs with h1 h2
  · exact ⟨⟨msgAllFields, rfl⟩, rfl⟩
  · exact ⟨⟨msgPasswordMismatch, rfl⟩, rfl⟩
  · rcases hm : findOneByEmailOrUsername st.users (email.getD "")
        (username.getD "") with _ | v
    · exact absurd hm hfind
    · exact ⟨⟨msgDuplicateUser, rfl⟩, rfl⟩

/-- C4 witness: signing up with the already-registered email is rejected and
changes nothing. -/
theorem signup_duplicate_rejected_witness :
    sampleUser ∈ stNoSession.users ∧
    sampleUser.email = (some "a@x.com" : Option String).getD "" ∧
    ((∃ e, (postSignup stNoSession (some "bob") (some "a@x.com") (some "pw")
        (some "pw")).1 = Response.render "signup" (some e)) ∧
      (postSignup stNoSession (some "bob") (some "a@x.com") (some "pw")
        (some "pw")).2 = stNoSession) :=
  ⟨List.mem_singleton.mpr rfl, rfl,
    signup_duplicate_rejected stNoSession (some "bob") (some "a@x.com")
      (some "pw") (some "pw") sampleUser (List.mem_singleton.mpr rfl)
      (Or.inl rfl)⟩

/-- C1: a review is persisted by `POST /reviews/new` only with a rating in
`[1,5]` and a comment non-empty after trimming (the persisted comment is the
trimmed submission); an authenticated submission violating either condition
re-renders the compose form with an error and persists nothing. -/
theorem review_creation_validated (st : ServerState) (su : SessionUser)
    (rating comment : Option String) (now : Nat)
    (hs : st.session = some su) :
    ((postReviewsNew st rating comment now).2.reviews ≠ st.reviews →
      ∃ r, (postReviewsNew st rating comment now).2.reviews =
          st.reviews ++ [r] ∧
        1 ≤ r.rating ∧ r.rating ≤ 5 ∧ r.comment ≠ "" ∧
        r.comment = trimString (comment.getD "")) ∧
    (validSubmission rating comment = false →
      (∃ e, (postReviewsNew st rating comment now).1 =
        Response.render "new" (some e)) ∧
      (postReviewsNew st rating comment now).2 = st) := by
  have hbody : postReviewsNew st rating comment now =
      (if jsFalsy rating || jsFalsy comment then
        (Response.render "new" (some msgAllFields), st)
      else if jsLtNum (rating.getD "") 1 || jsGtNum (rating.getD "") 5 then
        (Response.render "new" (some msgRatingRange), st)
      else
        match saveReview st.reviews su.id (toNumber (rating.getD ""))
            (trimString (comment.getD "")) now with
        | Except.error _ => (Response.render "new" (some msgReviewSaveError), st)
        | Except.ok reviews2 =>
          (Response.redirect "/", { st with reviews := reviews2 })) := by
    unfold postReviewsNew
    rw [hs]
  rw [hbody]
  split_ifs with h1 h2
  · exact ⟨fun hne => absurd rfl hne, fun _ => ⟨⟨msgAllFields, rfl⟩, rfl⟩⟩
  · exact ⟨fun hne => absurd rfl hne, fun _ => ⟨⟨msgRatingRange, rfl⟩, rfl⟩⟩
  · rcases hm : saveReview st.reviews su.id (toNumber (rating.getD ""))
        (trimString (comment.getD "")) now with err | reviews2
    · exact ⟨fun hne => absurd rfl hne, fun _ => ⟨⟨msgReviewSaveError, rfl⟩, rfl⟩⟩
    · obtain ⟨r, hr, h1r, h5r, hcne, heq⟩ := saveReview_ok_spec hm
      constructor
      · intro _
        exact ⟨{ id := st.reviews.length, user := su.id, rating := r,
                 comment := trimString (comment.getD ""), createdAt := now },
               heq, h1r, h5r, hcne, rfl⟩
      · intro hv
        exfalso
        have hvt : validSubmission rating comment = true := by
          unfold validSubmission
          rw [hr]
          simp [h1r, h5r, hcne]
        rw [hv] at hvt
        cases hvt

/-- C1 witness: an authenticated submission with rating 6 is re-rendered with
an error and persists nothing. -/
theorem review_creation_validated_witness :
    stLoggedIn.session = some (sessionOf sampleUser) ∧
    validSubmission (some "6") (some "nice") = false ∧
    ((∃ e, (postReviewsNew stLoggedIn (some "6") (some "nice") 3).1 =
        Response.render "new" (some e)) ∧
      (postReviewsNew stLoggedIn (some "6") (some "nice") 3).2 = stLoggedIn) :=
  ⟨rfl, by decide,
    (review_creation_validated stLoggedIn (sessionOf sampleUser) (some "6")
      (some "nice") 3 rfl).2 (by decide)⟩

/-- C6: `GET /` renders exactly the feed `feedOf st`, and in that feed an
element with a strictly later creation time appears strictly earlier: if
entry `i` was created after entry `j`, then `i`'s position precedes `j`'s. -/
theorem feed_newest_first (st : ServerState) :
    getIndex st false = Response.renderIndex (feedOf st) ∧
    ∀ (i j : Nat) (hi : i < (feedOf st).length) (hj : j < (feedOf st).length),
      ((feedOf st).get ⟨j, hj⟩).review.createdAt <
        ((feedOf st).get ⟨i, hi⟩).review.createdAt → i < j := by
  constructor
  · rfl
  · have hs : List.Pairwise reviewDescOrder
        (List.insertionSort reviewDescOrder st.reviews) :=
      List.sorted_insertionSort reviewDescOrder st.reviews
    have hp : (feedOf st).Pairwise
        (fun a b => b.review.createdAt ≤ a.review.createdAt) :=
      List.Pairwise.map (populate st) (fun a b h => h) hs
    intro i j hi hj hlt
    rcases Nat.lt_trichotomy i j with h | h | h
    · exact h
    · exfalso
      subst h
      exact Nat.lt_irrefl _ hlt
    · exfalso
      have hle := List.pairwise_iff_get.mp hp ⟨j, hj⟩ ⟨i, hi⟩ h
      exact absurd hlt (Nat.not_lt.mpr hle)

/-- C6 witness: on the two-review sample state the newer review (created at
time 5) appears at position 0, before the older one. -/
theorem feed_newest_first_witness :
    ((feedOf stTwoReviews).get ⟨1, by decide⟩).review.createdAt <
      ((feedOf stTwoReviews).get ⟨0, by decide⟩).review.createdAt ∧ 0 < 1 :=
  ⟨by decide,
    (feed_newest_first stTwoReviews).2 0 1 (by decide) (by decide) (by decide)⟩

/-- C8: a mutating (POST) request whose submitted CSRF token is absent or
does not match the session's token is rejected before any route handler
runs — the response is the rejection and the state is untouched, whatever
the path and body — while read-only (GET) requests are never CSRF-rejected. -/
theorem csrf_gate (st : ServerState) (req : Request) (ext : Externals) :
    (req.method = Method.POST → csrfValid st req.body.csrfToken = false →
      handleRequest st req ext = (Response.forbidden, st)) ∧
    (req.method = Method.GET →
      (handleRequest st req ext).1 ≠ Response.forbidden) := by
  obtain ⟨m, p, body⟩ := req
  obtain ⟨sf, de, now⟩ := ext
  constructor
  · intro hm ht
    unfold handleRequest
    rw [if_pos ⟨hm, by simp [ht]⟩]
  · intro hm
    subst hm
    unfold handleRequest
    rw [if_neg (by rintro ⟨hpost, -⟩; cases hpost)]
    cases p
    case root => cases sf <;> simp [getIndex]
    case signup => simp
    case login => simp
    case reviewsNew =>
      rcases hses : st.session with _ | u <;> simp [getReviewsNew, hses]
    case reviewDetail rid =>
      cases sf
      · rcases hf : st.reviews.find? (fun r => r.id == rid) with _ | r <;>
          simp [getReviewDetail, hf]
      · simp [getReviewDetail]
    case logout => cases de <;> simp [getLogout]
    case other => simp

/-- C8 witness: a POST to `/reviews/new` with no token is rejected with the
state unchanged, although the submission itself is well-formed. -/
theorem csrf_gate_witness :
    reqBadCsrf.method = Method.POST ∧
    csrfValid stLoggedIn reqBadCsrf.body.csrfToken = false ∧
    handleRequest stLoggedIn reqBadCsrf extDefault =
      (Response.forbidden, stLoggedIn) :=
  ⟨rfl, rfl, (csrf_gate stLoggedIn reqBadCsrf extDefault).1 rfl rfl⟩

/-- After `POST /signup` the session is unchanged or holds exactly the new
user's identity fields. -/
theorem postSignup_session_spec (st : ServerState)
    (a b c d : Option String) :
    (postSignup st a b c d).2.session = st.session ∨
    ∃ u, u ∈ (postSignup st a b c d).2.users ∧
      (postSignup st a b c d).2.session = some (sessionOf u) := by
  unfold postSignup
  split_ifs with h1 h2
  · left; rfl
  · left; rfl
  · rcases hm : findOneByEmailOrUsername st.users (b.getD "") (a.getD "")
      with _ | v
    · rcases hsave : saveUser st.users (newUser st a b c) with e | users2
      · left; rfl
      · right
        refine ⟨newUser st a b c, ?_, rfl⟩
        have husers : users2 = st.users ++ [newUser st a b c] :=
          saveUser_ok_spec hsave
        simp [husers]
    · left; rfl

/-- After `POST /login` the session is unchanged or holds exactly the found
user's identity fields. -/
theorem postLogin_session_spec (st : ServerState) (a b : Option String) :
    (postLogin st a b).2.session = st.session ∨
    ∃ u, u ∈ (postLogin st a b).2.users ∧
      (postLogin st a b).2.session = some (sessionOf u) := by
  by_cases h1 : (jsFalsy a || jsFalsy b) = true
  · left
    have hred : postLogin st a b =
        (Response.render "login" (some msgAllFields), st) := by
      unfold postLogin
      rw [if_pos h1]
    rw [hred]
  · rcases hm : findOneByEmail st.users (a.getD "") with _ | u
    · left
      have hred : postLogin st a b =
          (Response.render "login" (some msgInvalidCredentials), st) := by
        unfold postLogin
        rw [if_neg h1, hm]
      rw [hred]
    · have hred : postLogin st a b =
          (if comparePassword u (b.getD "") = true then
            (Response.redirect "/", { st with session := some (sessionOf u) })
          else (Response.render "login" (some msgInvalidCredentials), st)) := by
        unfold postLogin
        rw [if_neg h1, hm]
      rw [hred]
      by_cases hcp : comparePassword u (b.getD "") = true
      · rw [if_pos hcp]
        right
        exact ⟨u, List.mem_of_find?_eq_some hm, rfl⟩
      · rw [if_neg hcp]
        left
        rfl

/-- Handler `POST /reviews/new` never writes the session. -/
theorem postReviewsNew_session_spec (st : ServerState) (a b : Option String)
    (now : Nat) :
    (postReviewsNew st a b now).2.session = st.session := by
  rcases hs : st.session with _ | su
  · have hred : postReviewsNew st a b now = (Response.redirect "/login", st) := by
      unfold postReviewsNew
      rw [hs]
    rw [hred]
    exact hs
  · have hred : postReviewsNew st a b now =
        (if jsFalsy a || jsFalsy b then
          (Response.render "new" (some msgAllFields), st)
        else if jsLtNum (a.getD "") 1 || jsGtNum (a.getD "") 5 then
          (Response.render "new" (some msgRatingRange), st)
        else
          match saveReview st.reviews su.id (toNumber (a.getD ""))
              (trimString (b.getD "")) now with
          | Except.error _ =>
            (Response.render "new" (some msgReviewSaveError), st)
          | Except.ok reviews2 =>
            (Response.redirect "/", { st with reviews := reviews2 })) := by
      unfold postReviewsNew
      rw [hs]
    rw [hred]
    split_ifs with h1 h2
    · exact hs
    · exact hs
    · rcases hm : saveReview st.reviews su.id (toNumber (a.getD ""))
        (trimString (b.getD "")) now with e | r2
      · exact hs
      · exact hs

/-- C10: after any request, the session is unchanged, cleared, or holds
exactly the three identity fields (id, username, email) of a stored user —
the `SessionUser` record carries nothing else, so in particular no password,
plaintext or hashed, is ever stored in the session. -/
theorem session_holds_only_identity (st : ServerState) (req : Request)
    (ext : Externals) :
    (handleRequest st req ext).2.session = st.session ∨
    (handleRequest st req ext).2.session = none ∨
    ∃ u, u ∈ (handleRequest st req ext).2.users ∧
      (handleRequest st req ext).2.session = some (sessionOf u) := by
  obtain ⟨m, p, body⟩ := req
  obtain ⟨sf, de, now⟩ := ext
  unfold handleRequest
  split
  · left; rfl
  · cases m <;> cases p
    case GET.root => left; rfl
    case GET.signup => left; rfl
    case GET.login => left; rfl
    case GET.reviewsNew => left; rfl
    case GET.reviewDetail rid => left; rfl
    case GET.logout =>
      cases de
      · right; left; rfl
      · left; rfl
    case GET.other => left; rfl
    case POST.root => left; rfl
    case POST.signup =>
      rcases postSignup_session_spec st body.username body.email body.password
          body.confirmPassword with h | h
      · left; exact h
      · right; right; exact h
    case POST.login =>
      rcases postLogin_session_spec st body.email body.password with h | h
      · left; exact h
      · right; right; exact h
    case POST.reviewsNew =>
      left; exact postReviewsNew_session_spec st body.rating body.comment now
    case POST.reviewDetail rid => left; rfl
    case POST.logout => left; rfl
    case POST.other => left; rfl

end ReviewsApp
